import Mathlib

/-!
Shallow embedding of `plugins/modules/ise_radius_integration_workflow_manager.py`
(class `IseRadiusIntegration`), the reconcile-loop resource manager for
Authentication/Policy (RADIUS/TACACS/ISE) server configuration.

Python dictionaries holding the auth-server payloads are embedded as Lean
structures whose fields are `Option`-typed (a `.get` on a missing key and a key
stored with value `None` both come out as `none`, matching how the module only
ever reads these dictionaries through `.get`).  Fallible code returns `PyResult`;
an uncaught Python exception (IndexError / TypeError / AttributeError) is the
`error` constructor.
-/

namespace IseRadius

/-- Result of a Python method that either finishes, sets
`self.status = "failed"` with `self.msg = msg`, or raises an exception. -/
inductive PyResult (α : Type) where
  | ok (a : α)
  | failed (msg : String)
  | error (exc : String)
  deriving Repr, DecidableEq

def PyResult.bind {α β : Type} : PyResult α → (α → PyResult β) → PyResult β
  | .ok a, f => f a
  | .failed m, _ => .failed m
  | .error e, _ => .error e

/-- Python truthiness of an optional boolean (`if x:` where `x` is a bool or
`None`): only `True` is truthy. -/
def truthyB : Option Bool → Bool
  | some b => b
  | none => false

/-- Python `str(x)` for an optional string (`str(None) = "None"`). -/
def pyStrOpt : Option String → String
  | some s => s
  | none => "None"

/-- Python `str(i)` for an integer. -/
def pyStrInt (i : Int) : String := toString i

/-- An ASCII single quote, written via its code point. -/
def sq : String := String.singleton (Char.ofNat 39)

/-- Wrap a string in single quotes, as the messages of the module do. -/
def q (s : String) : String := sq ++ s ++ sq

/-- The Python lowercase conversion (`str.lower`), ASCII-faithful. -/
def pyLower (s : String) : String := String.mk (s.toList.map Char.toLower)

/-- Auxiliary for the Python substring test: does `needle` occur at the head of
`hay`? -/
def startsAt : List Char → List Char → Bool
  | _, [] => true
  | [], _ :: _ => false
  | a :: as, b :: bs => a == b && startsAt as bs

/-- Auxiliary: does `needle` occur anywhere in `hay`? -/
def listHasSub : List Char → List Char → Bool
  | [], needle => needle.isEmpty
  | a :: as, needle => startsAt (a :: as) needle || listHasSub as needle

/-- The Python `needle in hay` substring test on strings. -/
def strHasSub (hay needle : String) : Bool := listHasSub hay.toList needle.toList

/-- One entry of a `ciscoIseDtos` list (both the `have` form built by
`get_auth_server_params` and the `want` form built by
`get_want_authentication_policy_server`; the `have` form never has a
password or ssh key). -/
structure IseDto where
  userName : Option String := none
  password : Option String := none
  fqdn : Option String := none
  ipAddress : Option String := none
  subscriberName : Option String := none
  description : Option String := none
  sshkey : Option String := none
  deriving Repr, DecidableEq

/-- One entry of `externalCiscoIseIpAddresses` in the want payload. -/
structure ExternalIpDto where
  externalIpAddress : Option String := none
  deriving Repr, DecidableEq

/-- One entry of `externalCiscoIseIpAddrDtos` in the want payload. -/
structure ExternalIseAddrDto where
  externalCiscoIseIpAddresses : List ExternalIpDto := []
  type : Option String := none
  deriving Repr, DecidableEq

/-- The auth-server dictionary manipulated by the module: both the `have`
details produced by `get_auth_server_params` and the `want` payload produced by
`get_want_authentication_policy_server` have this shape. -/
structure AuthServerDict where
  isIseEnabled : Option Bool := none
  ipAddress : Option String := none
  sharedSecret : Option String := none
  protocol : Option String := none
  port : Option Int := none
  encryptionScheme : Option String := none
  messageKey : Option String := none
  encryptionKey : Option String := none
  authenticationPort : Option Int := none
  accountingPort : Option Int := none
  retries : Option String := none
  timeoutSeconds : Option String := none
  role : Option String := none
  ciscoIseDtos : Option (List IseDto) := none
  pxgridEnabled : Option Bool := none
  useDnacCertForPxgrid : Option Bool := none
  externalCiscoIseIpAddrDtos : Option (List ExternalIseAddrDto) := none
  deriving Repr, DecidableEq

/-- Dictionary lookup by field name for the three allow-listed string fields
compared by `requires_update` (mirrors `dict.get(name)`). -/
def AuthServerDict.getStrField (d : AuthServerDict) : String → Option String
  | "protocol" => d.protocol
  | "retries" => d.retries
  | "timeoutSeconds" => d.timeoutSeconds
  | _ => none

/-- Modelled from the spec: `dnac_compare_equality` is imported from the
shared `module_utils/dnac.py` of the collection, which is not among these sources;
the spec describes the reconcile loop as computing "field-by-field diffs"
between the current value and the requested value.  A missing requested value
is no difference; otherwise the two values must be equal. -/
def dnac_compare_equality (current requested : Option String) : Bool :=
  match requested with
  | none => true
  | some r =>
    match current with
    | none => false
    | some c => c == r

/-- `IseRadiusIntegration.get_obj_params`: the fixed allow-list of compared
fields; any other argument raises internally, is caught, and yields the empty
list. -/
def get_obj_params : String → List (String × String)
  | "authenticationPolicyServer" =>
    [("protocol", "protocol"), ("retries", "retries"), ("timeoutSeconds", "timeoutSeconds")]
  | _ => []

/-- `IseRadiusIntegration.requires_update`: true iff any allow-listed parameter
differs between the current object and the requested object. -/
def requires_update (current_obj requested_obj : AuthServerDict)
    (obj_params : List (String × String)) : Bool :=
  obj_params.any fun p =>
    ! dnac_compare_equality (current_obj.getStrField p.1) (requested_obj.getStrField p.2)

/-- The comparison schema installed by `__init__` for this module. -/
def authentication_policy_server_obj_params : List (String × String) :=
  get_obj_params "authenticationPolicyServer"

/-- The Python `str(["authenticationPort", "accountingPort", "role"])`, as
interpolated into the update-restriction message. -/
def updateParamsStr : String :=
  "[" ++ q "authenticationPort" ++ ", " ++ q "accountingPort" ++ ", " ++ q "role" ++ "]"

/-- The failure message of `format_payload_for_update` for a forbidden change
of `item`. -/
def updateNotSupportedMsg (item : String) : String :=
  "Update does not support modifying " ++ q updateParamsStr ++
    ". Here you are trying to update " ++ q item ++ "."

/-- The failure message of `format_payload_for_update` for a forbidden protocol
change. -/
def protocolChangeMsg (have_p want_p : Option String) : String :=
  q "protocol" ++ " can only be updated to " ++ q "RADIUS_TACACS" ++ " not from " ++
    q (pyStrOpt have_p) ++ " to " ++ q (pyStrOpt want_p)

/-- Result of `format_payload_for_update`: on success the (possibly mutated)
want payload, else the failure message. -/
inductive FormatOutcome where
  | success (want : AuthServerDict)
  | failedMsg (msg : String)
  deriving Repr, DecidableEq

/-- One iteration of the `for item in update_params` loop of
`format_payload_for_update` over a single field: if the want value is `None`
the have value is copied in, and if it is present and differs the step fails. -/
def formatFieldStep {α : Type} [BEq α]
    (item : String) (have_item want_item : Option α) : PyResult (Option α) :=
  match want_item with
  | none => .ok have_item
  | some w =>
    if have_item == some w then .ok (some w)
    else .failed (updateNotSupportedMsg item)

/-- `IseRadiusIntegration.format_payload_for_update` (lines 1227-1265):
the `update_params` loop over `authenticationPort`, `accountingPort`, `role`
followed by the protocol-change restriction. -/
def format_payload_for_update (have_auth_server want_auth_server : AuthServerDict) :
    FormatOutcome :=
  match formatFieldStep "authenticationPort"
      have_auth_server.authenticationPort want_auth_server.authenticationPort with
  | .failed m => .failedMsg m
  | .error _ => .failedMsg ""
  | .ok ap =>
    let want1 := { want_auth_server with authenticationPort := ap }
    match formatFieldStep "accountingPort"
        have_auth_server.accountingPort want1.accountingPort with
    | .failed m => .failedMsg m
    | .error _ => .failedMsg ""
    | .ok acp =>
      let want2 := { want1 with accountingPort := acp }
      match formatFieldStep "role" have_auth_server.role want2.role with
      | .failed m => .failedMsg m
      | .error _ => .failedMsg ""
      | .ok r =>
        let want3 := { want2 with role := r }
        if have_auth_server.protocol != want3.protocol then
          if want3.protocol != some "RADIUS_TACACS" then
            .failedMsg (protocolChangeMsg have_auth_server.protocol want3.protocol)
          else .success want3
        else .success want3

/-- Python truthiness of an optional string (`None` and `""` are falsy). -/
def truthyS : Option String → Bool
  | some s => s != ""
  | none => false

/-- One entry of the `cisco_ise_dtos` list of the playbook. -/
structure IseCredCfg where
  user_name : Option String := none
  password : Option String := none
  fqdn : Option String := none
  ip_address : Option String := none
  description : Option String := none
  ssh_key : Option String := none
  deriving Repr, DecidableEq

/-- One entry of a playbook `external_cisco_ise_ip_addresses` list. -/
structure ExternalIpCfg where
  external_ip_address : Option String := none
  deriving Repr, DecidableEq

/-- One entry of the `external_cisco_ise_ip_addr_dtos` list of the playbook. -/
structure ExternalIseAddrCfg where
  external_cisco_ise_ip_addresses : Option (List ExternalIpCfg) := none
  ise_type : Option String := none
  deriving Repr, DecidableEq

/-- The `authentication_policy_server` dictionary of the playbook after schema
validation (integers arrive as integers, booleans as booleans). -/
structure AuthPolicyServerCfg where
  server_type : Option String := none
  server_ip_address : Option String := none
  shared_secret : Option String := none
  protocol : Option String := none
  encryption_scheme : Option String := none
  message_authenticator_code_key : Option String := none
  encryption_key : Option String := none
  authentication_port : Option Int := none
  accounting_port : Option Int := none
  retries : Option Int := none
  timeout : Option Int := none
  role : Option String := none
  pxgrid_enabled : Option Bool := none
  use_dnac_cert_for_pxgrid : Option Bool := none
  cisco_ise_dtos : Option (List IseCredCfg) := none
  external_cisco_ise_ip_addr_dtos : Option (List ExternalIseAddrCfg) := none
  trusted_server : Option Bool := none
  ise_integration_wait_time : Option Int := none
  deriving Repr, DecidableEq

/-- `get_want_authentication_policy_server` lines 745-763: the `server_type`
check (creation only), `isIseEnabled`, and the `ipAddress` update. -/
def stage_init (auth_server_exists : Bool) (auth_server_details : AuthServerDict)
    (cfg : AuthPolicyServerCfg) : PyResult AuthServerDict :=
  if auth_server_exists then
    .ok { isIseEnabled := auth_server_details.isIseEnabled,
          ipAddress := cfg.server_ip_address }
  else
    match cfg.server_type with
    | none => .ok { isIseEnabled := some false, ipAddress := cfg.server_ip_address }
    | some st =>
      if st == "ISE" then
        .ok { isIseEnabled := some true, ipAddress := cfg.server_ip_address }
      else if st == "AAA" then
        .ok { isIseEnabled := some false, ipAddress := cfg.server_ip_address }
      else
        .failed ("The server_type should either be ISE or AAA but not " ++ st ++ ".")

/-- The message for a missing `shared_secret`. -/
def missingSecretMsg : String :=
  "Missing parameter " ++ q "shared_secret" ++ " is required."

/-- The message for a `shared_secret` of the wrong length. -/
def secretLenMsg : String :=
  "The " ++ q "shared_secret" ++ " should contain between 4 and 100 characters."

/-- The message for a `shared_secret` with a forbidden character. -/
def secretCharMsg : String :=
  "The " ++ q "shared_secret" ++ " should not contain spaces or the characters " ++
    q "?" ++ ", " ++ q "<" ++ "."

/-- `get_want_authentication_policy_server` lines 765-787: the `shared_secret`
validation, performed only when the server does not yet exist.  The forbidden
characters are checked in the source order `" ?<"`. -/
def checkSharedSecret (auth_server_exists : Bool) (cfg : AuthPolicyServerCfg)
    (auth_server : AuthServerDict) : PyResult AuthServerDict :=
  if auth_server_exists then .ok auth_server
  else
    match cfg.shared_secret with
    | none => .failed missingSecretMsg
    | some s =>
      if s == "" then .failed missingSecretMsg
      else if s.length < 4 || s.length > 100 then .failed secretLenMsg
      else if s.toList.contains (Char.ofNat 32) then .failed secretCharMsg
      else if s.toList.contains (Char.ofNat 63) then .failed secretCharMsg
      else if s.toList.contains (Char.ofNat 60) then .failed secretCharMsg
      else .ok { auth_server with sharedSecret := some s }

/-- The message for an invalid `protocol` value. -/
def protocolInvalidMsg (p : String) : String :=
  "protocol should either be [" ++ q "RADIUS" ++ ", " ++ q "TACACS" ++ ", " ++
    q "RADIUS_TACACS" ++ "]." ++ "It should not be " ++ p

/-- `get_want_authentication_policy_server` lines 789-802: protocol validation
and defaulting (`RADIUS` on creation, the current protocol on update). -/
def stage_protocol (auth_server_exists : Bool) (auth_server_details : AuthServerDict)
    (cfg : AuthPolicyServerCfg) (auth_server : AuthServerDict) : PyResult AuthServerDict :=
  match cfg.protocol with
  | some p =>
    if p == "RADIUS" || p == "TACACS" || p == "RADIUS_TACACS" then
      .ok { auth_server with protocol := some p }
    else .failed (protocolInvalidMsg p)
  | none =>
    if !auth_server_exists then .ok { auth_server with protocol := some "RADIUS" }
    else .ok { auth_server with protocol := auth_server_details.protocol }

/-- `get_want_authentication_policy_server` lines 806-846: encryption-scheme
validation (creation only).  A scheme passing the membership check is
necessarily the non-empty `"KEYWRAP"` or `"RADSEC"`, so the truthiness guard
before storing it always holds. -/
def stage_encryption (auth_server_exists : Bool) (cfg : AuthPolicyServerCfg)
    (auth_server : AuthServerDict) : PyResult AuthServerDict :=
  if auth_server_exists then .ok auth_server
  else
    match cfg.encryption_scheme with
    | none => .ok auth_server
    | some e =>
      if e != "KEYWRAP" && e != "RADSEC" then
        .failed ("The encryption_scheme should be in [" ++ q "KEYWRAP" ++ ", " ++
          q "RADSEC" ++ "]. " ++ "It should not be " ++ e ++ ".")
      else
        let as1 := { auth_server with encryptionScheme := some e }
        if e == "KEYWRAP" then
          (PyResult.bind
            (match cfg.message_authenticator_code_key with
             | some mk => if mk == "" then
                 .failed ("The " ++ q "message_authenticator_code_key" ++
                   " should not be empty if the encryption_scheme is " ++ q "KEYWRAP" ++ ".")
               else .ok mk
             | none =>
               .failed ("The " ++ q "message_authenticator_code_key" ++
                 " should not be empty if the encryption_scheme is " ++ q "KEYWRAP" ++ ".")))
          fun mk =>
          if mk.length != 20 then
            .failed ("The " ++ q "message_authenticator_code_key" ++
              " should be exactly 20 characters.")
          else
            let as2 := { as1 with messageKey := some mk }
            (PyResult.bind
              (match cfg.encryption_key with
               | some ek => if ek == "" then
                   .failed ("The encryption_key should not be empty if encryption_scheme is " ++
                     q "KEYWRAP" ++ ".")
                 else .ok ek
               | none =>
                 .failed ("The encryption_key should not be empty if encryption_scheme is " ++
                   q "KEYWRAP" ++ ".")))
            fun ek =>
            if ek.length != 16 then
              .failed ("The " ++ q "encryption_key" ++
                " must be 16 characters long. It may contain alphanumeric and special characters.")
            else .ok { as2 with encryptionKey := some ek }
        else .ok as1

/-- `get_want_authentication_policy_server` lines 848-865: the authentication
port (default 1812 when falsy; `str(x).isdigit()` rejects exactly the
negatives; range 1..65535), copied from the current details when the server
exists. -/
def stage_authentication_port (auth_server_exists : Bool)
    (auth_server_details : AuthServerDict) (cfg : AuthPolicyServerCfg)
    (auth_server : AuthServerDict) : PyResult AuthServerDict :=
  if !auth_server_exists then
    let authentication_port : Int :=
      match cfg.authentication_port with
      | none => 1812
      | some a => if a == 0 then 1812 else a
    if authentication_port < 0 then
      .failed ("The " ++ q "authentication_port" ++ " should contain only digits.")
    else if authentication_port < 1 || authentication_port > 65535 then
      .failed ("The " ++ q "authentication_port" ++ " should be from 1 to 65535.")
    else .ok { auth_server with authenticationPort := some authentication_port }
  else .ok { auth_server with authenticationPort := auth_server_details.authenticationPort }

/-- `get_want_authentication_policy_server` lines 867-884: the accounting port
(default 1813), same shape as the authentication port. -/
def stage_accounting_port (auth_server_exists : Bool)
    (auth_server_details : AuthServerDict) (cfg : AuthPolicyServerCfg)
    (auth_server : AuthServerDict) : PyResult AuthServerDict :=
  if !auth_server_exists then
    let accounting_port : Int :=
      match cfg.accounting_port with
      | none => 1813
      | some a => if a == 0 then 1813 else a
    if accounting_port < 0 then
      .failed ("The " ++ q "accounting_port" ++ " should contain only digits.")
    else if accounting_port < 1 || accounting_port > 65535 then
      .failed ("The " ++ q "accounting_port" ++ " should be from 1 to 65535.")
    else .ok { auth_server with accountingPort := some accounting_port }
  else .ok { auth_server with accountingPort := auth_server_details.accountingPort }

/-- `get_want_authentication_policy_server` lines 886-904: retries (falsy means
default `"3"` on creation or the current value on update; range 1..3; the
`ValueError` branch is unreachable because the validated playbook value is
already an integer). -/
def stage_retries (auth_server_exists : Bool) (auth_server_details : AuthServerDict)
    (cfg : AuthPolicyServerCfg) (auth_server : AuthServerDict) : PyResult AuthServerDict :=
  let defaulted : AuthServerDict :=
    if !auth_server_exists then { auth_server with retries := some "3" }
    else { auth_server with retries := auth_server_details.retries }
  match cfg.retries with
  | none => .ok defaulted
  | some r =>
    if r == 0 then .ok defaulted
    else if r < 1 || r > 3 then
      .failed ("The " ++ q "retries" ++ " should be from 1 to 3.")
    else .ok { auth_server with retries := some (pyStrInt r) }

/-- `get_want_authentication_policy_server` lines 906-927: timeout (an absent
value means `"4"` on creation or `str` of the current value on update; range
2..20; the `ValueError` branch is unreachable for a validated integer). -/
def stage_timeout (auth_server_exists : Bool) (auth_server_details : AuthServerDict)
    (cfg : AuthPolicyServerCfg) (auth_server : AuthServerDict) : PyResult AuthServerDict :=
  let default_timeout : String :=
    if !auth_server_exists then "4" else pyStrOpt auth_server_details.timeoutSeconds
  match cfg.timeout with
  | none => .ok { auth_server with timeoutSeconds := some default_timeout }
  | some t =>
    if t < 2 || t > 20 then
      .failed ("The " ++ q "timeout" ++ " should be from 2 to 20.")
    else .ok { auth_server with timeoutSeconds := some (pyStrInt t) }

/-- `get_want_authentication_policy_server` lines 929-937: the role (playbook
value with default `"secondary"` on creation, the current role on update). -/
def stage_role (auth_server_exists : Bool) (auth_server_details : AuthServerDict)
    (cfg : AuthPolicyServerCfg) (auth_server : AuthServerDict) : PyResult AuthServerDict :=
  if !auth_server_exists then
    .ok { auth_server with
          role := some (match cfg.role with | none => "secondary" | some r => r) }
  else .ok { auth_server with role := auth_server_details.role }

/-- The Python `auth_server_details.get("ciscoIseDtos")[0]`: a `TypeError` when
the key holds `None`, an `IndexError` when the list is empty. -/
def detailsDto0 (auth_server_details : AuthServerDict) : PyResult IseDto :=
  match auth_server_details.ciscoIseDtos with
  | none => .error "TypeError"
  | some [] => .error "IndexError"
  | some (d :: _) => .ok d

/-- `get_want_authentication_policy_server` lines 949-1021, one iteration of
the `for ise_credential in cisco_ise_dtos` loop: builds one entry of the
`ciscoIseDtos` list of the want payload. -/
def buildOneIseDto (auth_server_exists : Bool) (auth_server_details : AuthServerDict)
    (cred : IseCredCfg) : PyResult IseDto :=
  (PyResult.bind
    (if truthyS cred.user_name then .ok cred.user_name
     else if !auth_server_exists then
       .failed ("Missing parameter " ++ q "user_name" ++ " is required when server_type is ISE.")
     else (detailsDto0 auth_server_details).bind fun d0 => .ok d0.userName))
  fun user_name =>
  (PyResult.bind
    (match cred.password with
     | some pw =>
       if pw == "" then
         .failed ("Missing parameter " ++ q "password" ++ " is required when server_type is ISE.")
       else if !(4 ≤ pw.length && pw.length ≤ 127) then .failed ""
       else .ok pw
     | none =>
       .failed ("Missing parameter " ++ q "password" ++ " is required when server_type is ISE.")))
  fun password =>
  (PyResult.bind
    (if truthyS cred.fqdn then .ok cred.fqdn
     else if !auth_server_exists then
       .failed ("Missing parameter " ++ q "fqdn" ++ " is required when server_type is ISE.")
     else (detailsDto0 auth_server_details).bind fun d0 => .ok d0.fqdn))
  fun fqdn =>
  (PyResult.bind
    (if truthyS cred.ip_address then .ok cred.ip_address
     else
       .failed ("Missing parameter " ++ q "ip_address" ++ " is required when server_type is ISE.")))
  fun ip_address =>
  (PyResult.bind
    (if !auth_server_exists then .ok (some "ersadmin")
     else (detailsDto0 auth_server_details).bind fun d0 => .ok d0.subscriberName))
  fun subscriberName =>
  .ok { userName := user_name, password := some password, fqdn := fqdn,
        ipAddress := ip_address, subscriberName := subscriberName,
        description := if truthyS cred.description then cred.description else none,
        sshkey := if truthyS cred.ssh_key then cred.ssh_key else none }

/-- The full `for ise_credential in cisco_ise_dtos` loop. -/
def buildIseDtos (auth_server_exists : Bool) (auth_server_details : AuthServerDict) :
    List IseCredCfg → PyResult (List IseDto)
  | [] => .ok []
  | c :: rest =>
    (buildOneIseDto auth_server_exists auth_server_details c).bind fun d =>
    (buildIseDtos auth_server_exists auth_server_details rest).bind fun ds =>
    .ok (d :: ds)

/-- The Python
`auth_server["externalCiscoIseIpAddrDtos"][pos].update({"type": t})`:
an `IndexError` when `pos` is out of range. -/
def setExtTypeAt (l : List ExternalIseAddrDto) (i : Nat) (t : String) :
    PyResult (List ExternalIseAddrDto) :=
  if h : i < l.length then .ok (l.set i { l.get ⟨i, h⟩ with type := some t })
  else .error "IndexError"

/-- `get_want_authentication_policy_server` lines 1043-1066: the
`external_cisco_ise_ip_addr_dtos` loop.  `position_ise_addresses` advances on
every iteration whether or not a dictionary was appended, so the `ise_type`
update can index past the end of the accumulated list. -/
def buildExternalLoop : List ExternalIseAddrCfg → List ExternalIseAddrDto → Nat →
    PyResult (List ExternalIseAddrDto)
  | [], acc, _ => .ok acc
  | e :: rest, acc, pos =>
    let acc1 :=
      match e.external_cisco_ise_ip_addresses with
      | some addrs =>
        if addrs.isEmpty then acc
        else
          let mapped : List ExternalIpDto :=
            addrs.map fun a => { externalIpAddress := a.external_ip_address }
          acc ++ [{ externalCiscoIseIpAddresses := mapped }]
      | none => acc
    match e.ise_type with
    | some t =>
      if t == "" then buildExternalLoop rest acc1 (pos + 1)
      else (setExtTypeAt acc1 pos t).bind fun acc2 => buildExternalLoop rest acc2 (pos + 1)
    | none => buildExternalLoop rest acc1 (pos + 1)

/-- The want-level values the ISE block stores beside the auth-server payload
(`self.want["trusted_server"]`, `self.want["ise_integration_wait_time"]`). -/
structure IseStageOut where
  auth_server : AuthServerDict
  trusted_server : Option Bool := none
  ise_integration_wait_time : Option Int := none
  deriving Repr, DecidableEq

/-- `get_want_authentication_policy_server` lines 939-1092: the whole
`if auth_server.get("isIseEnabled")` block — Cisco ISE credentials, pxgrid
flags, external ISE addresses, the trusted-server flag and the integration
wait time (default 20, range 1..120; the `ValueError` branch is unreachable
for a validated integer). -/
def stage_ise (auth_server_exists : Bool) (auth_server_details : AuthServerDict)
    (cfg : AuthPolicyServerCfg) (auth_server : AuthServerDict) : PyResult IseStageOut :=
  if !truthyB auth_server.isIseEnabled then .ok { auth_server := auth_server }
  else
    (PyResult.bind
      (match cfg.cisco_ise_dtos with
       | some (c :: cs) => .ok (c :: cs)
       | _ =>
         .failed ("Missing parameter " ++ q "cisco_ise_dtos" ++ " " ++
           "required when server_type is " ++ q "ISE" ++ ".")))
    fun creds =>
    (buildIseDtos auth_server_exists auth_server_details creds).bind fun dtos =>
    let as1 := { auth_server with ciscoIseDtos := some dtos }
    let pxgrid_enabled : Option Bool :=
      match cfg.pxgrid_enabled with
      | some b => some b
      | none => if auth_server_exists then auth_server_details.pxgridEnabled else some true
    let as2 := { as1 with pxgridEnabled := pxgrid_enabled }
    let use_dnac_cert_for_pxgrid : Option Bool :=
      match cfg.use_dnac_cert_for_pxgrid with
      | some b => some b
      | none =>
        if auth_server_exists then auth_server_details.useDnacCertForPxgrid else some false
    let as3 := { as2 with useDnacCertForPxgrid := use_dnac_cert_for_pxgrid }
    (PyResult.bind
      (match cfg.external_cisco_ise_ip_addr_dtos with
       | some (e :: es) =>
         (buildExternalLoop (e :: es) [] 0).bind fun ext =>
           .ok { as3 with externalCiscoIseIpAddrDtos := some ext }
       | _ => .ok as3))
    fun as4 =>
    let trusted_server : Bool :=
      match cfg.trusted_server with
      | none => true
      | some b => b
    match cfg.ise_integration_wait_time with
    | none =>
      .ok { auth_server := as4, trusted_server := some trusted_server,
            ise_integration_wait_time := some 20 }
    | some w =>
      if w < 1 || w > 120 then
        .failed "The ise_integration_wait_time should be from 1 to 120 seconds."
      else
        .ok { auth_server := as4, trusted_server := some trusted_server,
              ise_integration_wait_time := some w }

/-- The desired state accumulated in `self.want`. -/
structure WantState where
  authenticationPolicyServer : Option AuthServerDict := none
  trusted_server : Option Bool := none
  ise_integration_wait_time : Option Int := none
  deriving Repr, DecidableEq

/-- `IseRadiusIntegration.get_want_authentication_policy_server` (lines
730-1099), composed from its stages in source order; `auth_server_exists` and
`auth_server_details` are the entry from `self.have` collected by `get_have`.
On success `self.want` holds the built payload and the method reports
status `"success"`. -/
def get_want_authentication_policy_server (auth_server_exists : Bool)
    (auth_server_details : AuthServerDict) (auth_policy_server : AuthPolicyServerCfg) :
    PyResult WantState :=
  (stage_init auth_server_exists auth_server_details auth_policy_server).bind fun a1 =>
  (checkSharedSecret auth_server_exists auth_policy_server a1).bind fun a2 =>
  (stage_protocol auth_server_exists auth_server_details auth_policy_server a2).bind fun a3 =>
  let a4 := { a3 with port := some 49 }
  (stage_encryption auth_server_exists auth_policy_server a4).bind fun a5 =>
  (stage_authentication_port auth_server_exists auth_server_details auth_policy_server a5).bind
  fun a6 =>
  (stage_accounting_port auth_server_exists auth_server_details auth_policy_server a6).bind
  fun a7 =>
  (stage_retries auth_server_exists auth_server_details auth_policy_server a7).bind fun a8 =>
  (stage_timeout auth_server_exists auth_server_details auth_policy_server a8).bind fun a9 =>
  (stage_role auth_server_exists auth_server_details auth_policy_server a9).bind fun a10 =>
  (stage_ise auth_server_exists auth_server_details auth_policy_server a10).bind fun out =>
  .ok { authenticationPolicyServer := some out.auth_server,
        trusted_server := out.trusted_server,
        ise_integration_wait_time := out.ise_integration_wait_time }

/-- The inner `response` dictionary of a task-creating API call, as read by
`check_auth_server_response_status`. -/
structure ApiTaskResponse where
  errorcode : Option String := none
  detail : Option String := none
  taskId : Option String := none
  deriving Repr, DecidableEq

/-- Task details returned by `get_task_details` for one poll.  The module reads
`progress` with `.lower()` unconditionally, so a progress string is assumed
present. -/
structure TaskDetails where
  isError : Option Bool := none
  failureReason : Option String := none
  progress : String := ""
  deriving Repr, DecidableEq

/-- The slice of `self` that `check_auth_server_response_status` reads and
writes: `status`, `msg`, `result["changed"]`, `validation_string`. -/
structure PollState where
  status : String := "success"
  msg : String := ""
  changed : Bool := false
  validationString : String := ""
  deriving Repr, DecidableEq

/-- Which `break` ended the polling `while True` loop. -/
inductive ExitTag where
  | timeoutBreak
  | errorBreak
  | changedBreak
  deriving Repr, DecidableEq

/-- The state on leaving the polling loop, with the exit branch, the index of
the poll at exit, and the elapsed time at exit. -/
structure PollReturn where
  st : PollState
  tag : ExitTag
  exitPoll : Nat
  exitElapsed : Nat
  deriving Repr, DecidableEq

/-- The `for validation_string in validation_string_set` scan: the first
member occurring in the lowered progress message, if any. -/
def scanValidation : List String → String → Option String
  | [], _ => none
  | v :: rest, p => if strHasSub p v then some v else scanValidation rest p

/-- The failure message when a task reports `isError`: the failure reason when
truthy, else the progress message. -/
def failureMsgOf (td : TaskDetails) : String :=
  match td.failureReason with
  | some r => if r == "" then td.progress else r
  | none => td.progress

/-- The message built when the poll loop reaches `dnac_api_task_timeout`
(the two `format` fragments are concatenated without a separating space). -/
def timeoutMsg (maxT : Nat) (task_id : Option String) (api_name : String) : String :=
  "Max timeout of " ++ toString maxT ++ " sec has reached for the execution id " ++
    q (pyStrOpt task_id) ++ "." ++ "Exiting the loop due to unexpected API " ++
    q api_name ++ " status."

/-- The `while True` polling loop of `check_auth_server_response_status`
(lines 1190-1223).  `getTask` gives the task details returned by the n-th
poll; `elapsed` advances by `dt` per iteration (`dt` covers the fixed
`sleep_time = max_timeout / 1000` pause plus the positive real time each poll
takes).  The fuel argument is a recursion bound; `none` means it ran out,
which `pollLoop_total` shows cannot happen for the fuel the wrapper picks
whenever `dt ≥ 1`. -/
def pollLoopAux (getTask : Nat → TaskDetails) (vs : List String) (maxT dt : Nat)
    (task_id : Option String) (api_name : String) :
    Nat → Nat → Nat → PollState → Option PollReturn
  | 0, _, _, _ => none
  | fuel + 1, elapsed, n, st =>
    if maxT ≤ elapsed then
      some { st := { st with status := "failed", msg := timeoutMsg maxT task_id api_name },
             tag := .timeoutBreak, exitPoll := n, exitElapsed := elapsed }
    else
      let td := getTask n
      if td.isError == some true then
        some { st := { st with status := "failed", msg := failureMsgOf td },
               tag := .errorBreak, exitPoll := n, exitElapsed := elapsed }
      else
        let st1 :=
          match scanValidation vs (pyLower td.progress) with
          | some v => { st with changed := true, validationString := v, status := "success" }
          | none => st
        if st1.changed then
          some { st := st1, tag := .changedBreak, exitPoll := n, exitElapsed := elapsed }
        else pollLoopAux getTask vs maxT dt task_id api_name fuel (elapsed + dt) (n + 1) st1

/-- Result of `check_auth_server_response_status`: the missing-response crash,
the errorcode early failure, or the exit of the polling loop (with `fuelOut` as the
recursion-bound sentinel). -/
inductive CheckOutcome where
  | attrError
  | earlyFailed (detail : Option String)
  | fuelOut
  | exited (r : PollReturn)
  deriving Repr, DecidableEq

/-- `IseRadiusIntegration.check_auth_server_response_status` (lines
1167-1225): unwraps the response, fails straight away on an `errorcode`, and
otherwise polls the task until an error, a validation-string match, or the
`dnac_api_task_timeout` bound `maxT`. -/
def check_auth_server_response_status (outer : Option ApiTaskResponse)
    (getTask : Nat → TaskDetails) (validation_string_set : List String)
    (maxT dt : Nat) (api_name : String) (init : PollState) : CheckOutcome :=
  match outer with
  | none => .attrError
  | some resp =>
    if resp.errorcode != none then .earlyFailed resp.detail
    else
      match pollLoopAux getTask validation_string_set maxT dt resp.taskId api_name
          (maxT + 1) 0 0 init with
      | none => .fuelOut
      | some r => .exited r

/-- The REST calls the module can submit while reconciling one config
element.  The first three are the mutating configuration calls; `acceptCert`
and `getServers` are the certificate-acceptance step and the read-only lookup
of the post-integration state. -/
inductive RestCall where
  | addServer
  | editServer
  | deleteServer
  | acceptCert
  | getServers
  deriving Repr, DecidableEq

/-- The outcome of one task-polling phase (`check_auth_server_response_status`
or the `DnacBase` helper `check_task_response_status`), abstracted over the
behaviour of the remote task: the status and message it leaves in `self`, whether
it set `result["changed"]`, and the validation string it recorded. -/
structure PollOutcome where
  status : String := "success"
  msg : String := ""
  setChanged : Bool := true
  validationString : String := ""
  deriving Repr, DecidableEq

/-- One entry of the `get_authentication_and_policy_servers` response consulted
after an ISE integration. -/
structure IseEntry where
  ipAddress : Option String := none
  state : Option String := none
  deriving Repr, DecidableEq

/-- The behaviour of the remote system during `update_auth_policy_server` /
`delete_auth_policy_server`: the poll outcomes of the three task-creating
calls, whether `accept_cisco_ise_server_certificate` left a failure (its
internal server lookup is remote traffic), and the inner response of the
post-integration server query (`none` models a response without a `response`
field). -/
structure UpdateEnv where
  addPoll : PollOutcome := {}
  editPoll : PollOutcome := {}
  deletePoll : PollOutcome := {}
  acceptFailure : Option String := none
  getServersResponse : Option (List IseEntry) := none
  deriving Repr, DecidableEq

/-- The slice of `self` state these methods touch, plus the record of submitted
REST calls and the per-IP entries written into
`self.result["response"][0]["authenticationPolicyServer"]`. -/
structure ModState where
  status : String := "success"
  msg : String := ""
  changed : Bool := false
  validationString : String := ""
  calls : List RestCall := []
  resultMsgEntry : Option String := none
  resultResponseEntry : Option String := none
  crashed : Bool := false
  deriving Repr, DecidableEq

/-- Modelled from the spec: `get_dict_result` from the shared
`module_utils/dnac.py` of the collection (not among these sources) looks up the entry of a list
of dictionaries whose given key holds the given value, returning `None` when
there is none. -/
def get_dict_result (entries : List IseEntry) (ip : String) : Option IseEntry :=
  entries.find? fun e => e.ipAddress == some ip

/-- Folding the outcome of a task-polling phase into the module state:
`result["changed"]` is only ever raised to `True`, never cleared. -/
def applyPoll (p : PollOutcome) (st : ModState) : ModState :=
  { st with
    status := p.status
    msg := p.msg
    changed := st.changed || p.setChanged
    validationString := p.validationString }

@[simp]
theorem applyPoll_calls (p : PollOutcome) (st : ModState) : (applyPoll p st).calls = st.calls :=
  rfl

@[simp]
theorem applyPoll_resultMsgEntry (p : PollOutcome) (st : ModState) :
    (applyPoll p st).resultMsgEntry = st.resultMsgEntry :=
  rfl

@[simp]
theorem applyPoll_resultResponseEntry (p : PollOutcome) (st : ModState) :
    (applyPoll p st).resultResponseEntry = st.resultResponseEntry :=
  rfl

/-- Per-IP message on a successful creation. -/
def createdMsg : String := "Authentication and Policy Server Created Successfully"

/-- Per-IP message on a successful edit. -/
def updatedMsg : String := "Authentication and Policy Server Updated Successfully"

/-- Per-IP message when no edit is needed. -/
def noUpdateMsg : String :=
  "Authentication and Policy Server doesn" ++ sq ++ "t require an update"

/-- `self.msg` after a successful `format_payload_for_update`. -/
def formatOkMsg : String :=
  "Successfully formatted the parameter of the payload for updating the " ++
    "authentication and policy server."

/-- The message when the ISE integration is still `INPROGRESS` after the wait. -/
def inprogressMsg (ip : String) (wait : Option Int) : String :=
  "The Cisco ISE server " ++ q ip ++ " integration is incomplete, currently in " ++
    q "INPROGRESS" ++ " state. " ++
    "The integration has exceeded the expected duration of " ++
    q (match wait with | some w => pyStrInt w | none => "None") ++ " second(s)."

/-- The message when the ISE integration lands in the `FAILED` state. -/
def failedStateMsg (ip : String) (trusted : Option Bool) : String :=
  "The Cisco ISE server " ++ q ip ++ " integration has failed and in " ++
    q "FAILED" ++ " state." ++
    (if trusted == some false then
      " This is the first time Cisco Catalyst Center has encountered " ++
        "this certificate from Cisco ISE, and it is not yet trusted."
    else "")

/-- `IseRadiusIntegration.update_auth_policy_server` (lines 1267-1398).
When the server does not exist it submits the create call and, for an ISE
server whose creation ended in `"operation sucessful"`, runs the
certificate-acceptance step and re-queries the integration state.  When the
server exists it formats the payload (aborting the run via
`check_return_status` on failure), then either reports that no update is
required or submits the edit call.  Task polling is abstracted by `env`
(see `check_auth_server_response_status` for the loop itself). -/
def update_auth_policy_server (ipAddress : String) (auth_server_exists : Bool)
    (have_details : AuthServerDict) (want_auth : AuthServerDict)
    (want_trusted : Option Bool) (want_wait : Option Int)
    (env : UpdateEnv) (st0 : ModState) : ModState :=
  let is_ise_server := truthyB want_auth.isIseEnabled
  if !auth_server_exists then
    let st1 := { st0 with calls := st0.calls ++ [RestCall.addServer] }
    let st2 := applyPoll env.addPoll st1
    if st2.status == "failed" then st2
    else if is_ise_server && st2.validationString == "operation sucessful" then
      let st3 := { st2 with calls := st2.calls ++ [RestCall.acceptCert] }
      let st3 :=
        match env.acceptFailure with
        | some m => { st3 with status := "failed", msg := m }
        | none => st3
      let st4 := { st3 with calls := st3.calls ++ [RestCall.getServers] }
      match env.getServersResponse with
      | none =>
        { st4 with
          status := "failed"
          msg := "Failed to retrieve the information from the API " ++
            q "get_authentication_and_policy_servers" ++ " of " ++ ipAddress ++ "." }
      | some entries =>
        match get_dict_result entries ipAddress with
        | none => { st4 with crashed := true }
        | some entry =>
          if entry.state == some "INPROGRESS" then
            { st4 with status := "failed", msg := inprogressMsg ipAddress want_wait }
          else if entry.state == some "FAILED" then
            { st4 with status := "failed", msg := failedStateMsg ipAddress want_trusted }
          else { st4 with resultMsgEntry := some createdMsg }
    else { st2 with resultMsgEntry := some createdMsg }
  else
    match format_payload_for_update have_details want_auth with
    | .failedMsg m => { st0 with status := "failed", msg := m }
    | .success want1 =>
      let st1 := { st0 with status := "success", msg := formatOkMsg }
      let is_ise_server_enabled := truthyB have_details.isIseEnabled
      if !(is_ise_server_enabled ||
           requires_update have_details want1 authentication_policy_server_obj_params) then
        { st1 with resultMsgEntry := some noUpdateMsg }
      else
        let st2 := { st1 with calls := st1.calls ++ [RestCall.editServer] }
        let st3 := applyPoll env.editPoll st2
        if st3.status == "failed" then st3
        else { st3 with resultMsgEntry := some updatedMsg }

/-- `IseRadiusIntegration.delete_auth_policy_server` (lines 1419-1462).
An absent server is reported without any REST call; otherwise the delete call
is submitted and its task polled (`check_task_response_status`, a `DnacBase`
helper not among these sources, abstracted as `env.deletePoll`;
`check_return_status` aborts on a failed poll). -/
def delete_auth_policy_server (ipAddress : String) (auth_server_exists : Bool)
    (env : UpdateEnv) (st0 : ModState) : ModState :=
  if !auth_server_exists then
    { st0 with
      resultResponseEntry := some "Authentication and Policy Server not found",
      msg := "Authentication and Policy Server not found.",
      status := "success" }
  else
    let st1 := { st0 with calls := st0.calls ++ [RestCall.deleteServer] }
    let st2 := applyPoll env.deletePoll st1
    if st2.status == "failed" then st2
    else
      { st2 with
        resultResponseEntry := some "Task Id",
        resultMsgEntry := some "Authentication and Policy Server deleted successfully.",
        msg := "Authentication and Policy Server - " ++ ipAddress ++
          " deleted successfully.",
        status := "success" }

/-- The per-element dispatch of the `main` loop:
`get_diff_state_apply["merged"] = get_diff_merged` runs
`update_auth_policy_server`, `get_diff_state_apply["deleted"] =
get_diff_deleted` runs `delete_auth_policy_server` (both only for an element
carrying an `authentication_policy_server` block, which is the case modelled
here). -/
def applyElement (state : String) (ipAddress : String) (auth_server_exists : Bool)
    (have_details : AuthServerDict) (want_auth : AuthServerDict)
    (want_trusted : Option Bool) (want_wait : Option Int)
    (env : UpdateEnv) (st0 : ModState) : ModState :=
  if state == "merged" then
    update_auth_policy_server ipAddress auth_server_exists have_details want_auth
      want_trusted want_wait env st0
  else if state == "deleted" then
    delete_auth_policy_server ipAddress auth_server_exists env st0
  else st0

/-! ## Shared concrete fixtures -/

/-- The `have` details of a typical existing non-ISE server. -/
def exampleHave : AuthServerDict :=
  { isIseEnabled := some false, ipAddress := some "10.0.0.1", protocol := some "RADIUS",
    retries := some "3", timeoutSeconds := some "4", authenticationPort := some 1812,
    accountingPort := some 1813, role := some "secondary" }

/-- A want payload identical to `exampleHave` on every compared field. -/
def exampleWantSame : AuthServerDict :=
  { isIseEnabled := some false, ipAddress := some "10.0.0.1", protocol := some "RADIUS",
    port := some 49, retries := some "3", timeoutSeconds := some "4",
    authenticationPort := some 1812, accountingPort := some 1813, role := some "secondary" }

/-- Is a want value present and different from the have value (the rejection
condition of the `update_params` loop)? -/
def presentAndDiffers {α : Type} [BEq α] (have_item want_item : Option α) : Bool :=
  match want_item with
  | none => false
  | some w => !(have_item == some w)

/-- The want payload after the `update_params` loop: each restricted field is
kept when present and copied from the have side when absent. -/
def formatFilled (h w : AuthServerDict) : AuthServerDict :=
  { w with
    authenticationPort :=
      if w.authenticationPort.isSome then w.authenticationPort else h.authenticationPort
    accountingPort :=
      if w.accountingPort.isSome then w.accountingPort else h.accountingPort
    role := if w.role.isSome then w.role else h.role }

/-- Normal form of `format_payload_for_update`: the first present-and-differing
restricted field fails, then a protocol change to anything but
`"RADIUS_TACACS"` fails, otherwise the filled want payload is returned. -/
theorem format_eq (h w : AuthServerDict) :
    format_payload_for_update h w =
      if presentAndDiffers h.authenticationPort w.authenticationPort then
        .failedMsg (updateNotSupportedMsg "authenticationPort")
      else if presentAndDiffers h.accountingPort w.accountingPort then
        .failedMsg (updateNotSupportedMsg "accountingPort")
      else if presentAndDiffers h.role w.role then
        .failedMsg (updateNotSupportedMsg "role")
      else if (h.protocol != w.protocol) && (w.protocol != some "RADIUS_TACACS") then
        .failedMsg (protocolChangeMsg h.protocol w.protocol)
      else .success (formatFilled h w) := by
  rcases hA : w.authenticationPort with _ | a <;>
  rcases hB : w.accountingPort with _ | b <;>
  rcases hR : w.role with _ | r <;>
  simp only [format_payload_for_update, formatFieldStep, presentAndDiffers,
    formatFilled, hA, hB, hR, Option.isSome_none, Option.isSome_some, if_true, if_false,
    Bool.not_true, Bool.not_false] <;>
  (try by_cases hha : h.authenticationPort = some a) <;>
  (try by_cases hhb : h.accountingPort = some b) <;>
  (try by_cases hhr : h.role = some r) <;>
  simp_all <;>
  (try (split <;> simp_all))

/-- C10: deleting an absent server is a no-op: no REST call, status
`"success"`, the fixed not-found message, and `result["changed"]` untouched. -/
theorem c10_delete_absent_is_noop (ipAddress : String) (env : UpdateEnv) (st0 : ModState) :
    (delete_auth_policy_server ipAddress false env st0).calls = st0.calls ∧
    (delete_auth_policy_server ipAddress false env st0).status = "success" ∧
    (delete_auth_policy_server ipAddress false env st0).msg =
      "Authentication and Policy Server not found." ∧
    (delete_auth_policy_server ipAddress false env st0).changed = st0.changed ∧
    (delete_auth_policy_server ipAddress false env st0).resultResponseEntry =
      some "Authentication and Policy Server not found" := by
  simp [delete_auth_policy_server]

/-- C3: in `format_payload_for_update`, each of `authenticationPort`,
`accountingPort`, `role` is copied from the have side when the want side omits
it; a present differing value fails with the update-restriction message naming
one of the offending fields; and a formatting failure precludes the edit call. -/
theorem c3_format_update_restrictions (have_auth_server want_auth_server : AuthServerDict) :
    (∀ w1, format_payload_for_update have_auth_server want_auth_server = .success w1 →
      (want_auth_server.authenticationPort = none →
        w1.authenticationPort = have_auth_server.authenticationPort) ∧
      (want_auth_server.accountingPort = none →
        w1.accountingPort = have_auth_server.accountingPort) ∧
      (want_auth_server.role = none → w1.role = have_auth_server.role)) ∧
    ((presentAndDiffers have_auth_server.authenticationPort
        want_auth_server.authenticationPort ||
      presentAndDiffers have_auth_server.accountingPort
        want_auth_server.accountingPort ||
      presentAndDiffers have_auth_server.role want_auth_server.role) = true →
      ∃ item, (item = "authenticationPort" ∨ item = "accountingPort" ∨ item = "role") ∧
        format_payload_for_update have_auth_server want_auth_server =
          .failedMsg (updateNotSupportedMsg item)) ∧
    (∀ m, format_payload_for_update have_auth_server want_auth_server = .failedMsg m →
      ∀ ipAddress want_trusted want_wait env (st0 : ModState), st0.calls = [] →
        (update_auth_policy_server ipAddress true have_auth_server want_auth_server
            want_trusted want_wait env st0).calls = []) := by
  refine ⟨?_, ?_, ?_⟩
  · intro w1 hw
    rw [format_eq] at hw
    by_cases hA : presentAndDiffers have_auth_server.authenticationPort
        want_auth_server.authenticationPort = true
    · simp [hA] at hw
    · by_cases hB : presentAndDiffers have_auth_server.accountingPort
          want_auth_server.accountingPort = true
      · simp [hA, hB] at hw
      · by_cases hR : presentAndDiffers have_auth_server.role want_auth_server.role = true
        · simp [hA, hB, hR] at hw
        · have hw1 : w1 = formatFilled have_auth_server want_auth_server := by
            by_cases hP : ((have_auth_server.protocol != want_auth_server.protocol) &&
                (want_auth_server.protocol != some "RADIUS_TACACS")) = true <;>
              simp_all
          subst hw1
          refine ⟨fun h0 => ?_, fun h0 => ?_, fun h0 => ?_⟩ <;>
            simp [formatFilled, h0]
  · intro hbad
    rw [format_eq]
    by_cases hA : presentAndDiffers have_auth_server.authenticationPort
        want_auth_server.authenticationPort = true
    · exact ⟨"authenticationPort", Or.inl rfl, by simp [hA]⟩
    · by_cases hB : presentAndDiffers have_auth_server.accountingPort
          want_auth_server.accountingPort = true
      · exact ⟨"accountingPort", Or.inr (Or.inl rfl), by simp [hA, hB]⟩
      · have hR : presentAndDiffers have_auth_server.role want_auth_server.role = true := by
          rcases Bool.or_eq_true_iff.mp hbad with h | h
          · rcases Bool.or_eq_true_iff.mp h with h' | h'
            · exact absurd h' hA
            · exact absurd h' hB
          · exact h
        exact ⟨"role", Or.inr (Or.inr rfl), by simp [hA, hB, hR]⟩
  · intro m hfail ipAddress want_trusted want_wait env st0 hcalls
    unfold update_auth_policy_server
    simp [hfail, hcalls]

/-- C3 witness: with `exampleHave` and a want payload that changes the role,
formatting fails with the restriction message, and the edit call is never
submitted. -/
theorem c3_format_update_restrictions_witness :
    ∃ item, (item = "authenticationPort" ∨ item = "accountingPort" ∨ item = "role") ∧
      format_payload_for_update exampleHave { exampleWantSame with role := some "primary" } =
        .failedMsg (updateNotSupportedMsg item) :=
  (c3_format_update_restrictions exampleHave
    { exampleWantSame with role := some "primary" }).2.1 (by decide)

/-- C4: when the port/role loop passes and the desired protocol differs from
the current one, formatting fails exactly when the desired protocol is not
`"RADIUS_TACACS"`, and a change to `"RADIUS_TACACS"` is accepted. -/
theorem c4_protocol_change (have_auth_server want_auth_server : AuthServerDict)
    (hA : presentAndDiffers have_auth_server.authenticationPort
      want_auth_server.authenticationPort = false)
    (hB : presentAndDiffers have_auth_server.accountingPort
      want_auth_server.accountingPort = false)
    (hR : presentAndDiffers have_auth_server.role want_auth_server.role = false)
    (hp : have_auth_server.protocol ≠ want_auth_server.protocol) :
    ((∃ m, format_payload_for_update have_auth_server want_auth_server = .failedMsg m) ↔
      want_auth_server.protocol ≠ some "RADIUS_TACACS") ∧
    (want_auth_server.protocol = some "RADIUS_TACACS" →
      ∃ w1, format_payload_for_update have_auth_server want_auth_server = .success w1) := by
  rw [format_eq]
  simp only [hA, hB, hR, Bool.false_eq_true, if_false]
  have hpB : (have_auth_server.protocol != want_auth_server.protocol) = true := by
    simpa using hp
  constructor
  · constructor
    · intro ⟨m, hm⟩ hrt
      have hrtB : (want_auth_server.protocol != some "RADIUS_TACACS") = false := by
        simp [hrt]
      simp [hpB, hrtB] at hm
    · intro hrt
      refine ⟨protocolChangeMsg have_auth_server.protocol want_auth_server.protocol, ?_⟩
      have hrtB : (want_auth_server.protocol != some "RADIUS_TACACS") = true := by
        simpa using hrt
      simp [hpB, hrtB]
  · intro hrt
    have hrtB : (want_auth_server.protocol != some "RADIUS_TACACS") = false := by
      simp [hrt]
    refine ⟨formatFilled have_auth_server want_auth_server, ?_⟩
    simp [hpB, hrtB]

/-- C4 witness: changing the protocol of `exampleHave` to `RADIUS_TACACS` is
accepted while the iff characterises the failure condition. -/
theorem c4_protocol_change_witness :
    ((∃ m, format_payload_for_update exampleHave
        { exampleWantSame with protocol := some "RADIUS_TACACS" } = .failedMsg m) ↔
      ({ exampleWantSame with protocol := some "RADIUS_TACACS" } : AuthServerDict).protocol ≠
        some "RADIUS_TACACS") ∧
    (({ exampleWantSame with protocol := some "RADIUS_TACACS" } : AuthServerDict).protocol =
        some "RADIUS_TACACS" →
      ∃ w1, format_payload_for_update exampleHave
        { exampleWantSame with protocol := some "RADIUS_TACACS" } = .success w1) :=
  c4_protocol_change exampleHave { exampleWantSame with protocol := some "RADIUS_TACACS" }
    (by decide) (by decide) (by decide) (by decide)

/-- C1 counterexample: for the existing non-ISE server `exampleHave` and a
want payload whose protocol is `"TACACS"`, the allow-listed field `protocol`
differs (per `dnac_compare_equality`), yet no edit call is submitted — the
run aborts in `format_payload_for_update` because a protocol may only change
to `"RADIUS_TACACS"`. -/
theorem c1_counterexample :
    requires_update exampleHave { exampleWantSame with protocol := some "TACACS" }
      authentication_policy_server_obj_params = true ∧
    (update_auth_policy_server "10.0.0.1" true exampleHave
      { exampleWantSame with protocol := some "TACACS" } none none {} {}).calls = [] ∧
    (update_auth_policy_server "10.0.0.1" true exampleHave
      { exampleWantSame with protocol := some "TACACS" } none none {} {}).resultMsgEntry =
      none := by
  refine ⟨by decide, rfl, rfl⟩

/-- C1 (amended): for an existing server whose have details are not
ISE-enabled, the edit call is submitted iff `format_payload_for_update`
succeeds and an allow-listed field differs; when formatting succeeds and no
field differs, no call is made and the per-IP message reports that no update
is required. -/
theorem c1_edit_iff_allowlist_diff (ipAddress : String)
    (have_details want_auth : AuthServerDict) (want_trusted : Option Bool)
    (want_wait : Option Int) (env : UpdateEnv) (st0 : ModState)
    (hIse : truthyB have_details.isIseEnabled = false) (hcalls : st0.calls = []) :
    (RestCall.editServer ∈ (update_auth_policy_server ipAddress true have_details want_auth
        want_trusted want_wait env st0).calls ↔
      ∃ w1, format_payload_for_update have_details want_auth = .success w1 ∧
        requires_update have_details w1 authentication_policy_server_obj_params = true) ∧
    (∀ w1, format_payload_for_update have_details want_auth = .success w1 →
      requires_update have_details w1 authentication_policy_server_obj_params = false →
      (update_auth_policy_server ipAddress true have_details want_auth
          want_trusted want_wait env st0).calls = [] ∧
      (update_auth_policy_server ipAddress true have_details want_auth
          want_trusted want_wait env st0).resultMsgEntry = some noUpdateMsg) := by
  unfold update_auth_policy_server
  rcases hf : format_payload_for_update have_details want_auth with w1 | m
  · rcases hru : requires_update have_details w1 authentication_policy_server_obj_params
    · simp [hIse, hru, hcalls]
    · constructor
      · constructor
        · intro _; exact ⟨w1, rfl, hru⟩
        · intro _
          simp only [hIse, hru, Bool.false_or, Bool.not_true, Bool.false_eq_true, if_false]
          split <;> simp [applyPoll, hcalls]
      · intro w2 hw2 hru2
        rw [FormatOutcome.success.injEq] at hw2
        subst hw2
        rw [hru] at hru2
        exact absurd hru2 (by simp)
  · simp [hcalls]

/-- C1 witness: with identical have and want payloads the formatting succeeds,
nothing differs, and the no-update message is recorded with no call. -/
theorem c1_edit_iff_allowlist_diff_witness :
    (RestCall.editServer ∈ (update_auth_policy_server "10.0.0.1" true exampleHave
        exampleWantSame none none {} {}).calls ↔
      ∃ w1, format_payload_for_update exampleHave exampleWantSame = .success w1 ∧
        requires_update exampleHave w1 authentication_policy_server_obj_params = true) ∧
    (∀ w1, format_payload_for_update exampleHave exampleWantSame = .success w1 →
      requires_update exampleHave w1 authentication_policy_server_obj_params = false →
      (update_auth_policy_server "10.0.0.1" true exampleHave
          exampleWantSame none none {} {}).calls = [] ∧
      (update_auth_policy_server "10.0.0.1" true exampleHave
          exampleWantSame none none {} {}).resultMsgEntry = some noUpdateMsg) :=
  c1_edit_iff_allowlist_diff "10.0.0.1" exampleHave exampleWantSame none none {} {}
    (by decide) rfl

/-- C9: for an existing server whose have details are ISE-enabled, the edit
call is submitted whenever `format_payload_for_update` succeeds — no
allow-list comparison is consulted — and the no-update-required
outcome is unreachable. -/
theorem c9_ise_server_always_edits (ipAddress : String)
    (have_details want_auth : AuthServerDict) (want_trusted : Option Bool)
    (want_wait : Option Int) (env : UpdateEnv) (st0 : ModState)
    (hIse : truthyB have_details.isIseEnabled = true) (hcalls : st0.calls = [])
    (hmsg : st0.resultMsgEntry = none) :
    (∀ w1, format_payload_for_update have_details want_auth = .success w1 →
      RestCall.editServer ∈ (update_auth_policy_server ipAddress true have_details want_auth
        want_trusted want_wait env st0).calls) ∧
    (update_auth_policy_server ipAddress true have_details want_auth
      want_trusted want_wait env st0).resultMsgEntry ≠ some noUpdateMsg := by
  unfold update_auth_policy_server
  rcases hf : format_payload_for_update have_details want_auth with w1 | m
  · simp only [hIse, Bool.true_or, Bool.not_true, Bool.false_eq_true, if_false]
    constructor
    · intro w2 _
      split <;> simp [hcalls]
    · split
      · simp [hmsg]
      · exact (by decide : ¬(some updatedMsg = some noUpdateMsg))
  · simp [hmsg]

/-- C9 witness: an ISE-enabled have detail with an equal want payload still
yields the edit call. -/
theorem c9_ise_server_always_edits_witness :
    (∀ w1, format_payload_for_update { exampleHave with isIseEnabled := some true }
        exampleWantSame = .success w1 →
      RestCall.editServer ∈ (update_auth_policy_server "10.0.0.1" true
        { exampleHave with isIseEnabled := some true } exampleWantSame
        none none {} {}).calls) ∧
    (update_auth_policy_server "10.0.0.1" true { exampleHave with isIseEnabled := some true }
      exampleWantSame none none {} {}).resultMsgEntry ≠ some noUpdateMsg :=
  c9_ise_server_always_edits "10.0.0.1" { exampleHave with isIseEnabled := some true }
    exampleWantSame none none {} {} (by decide) rfl rfl

/-- The three mutating configuration calls, as opposed to the certificate
acceptance and the read-only server query. -/
def mutatingCall : RestCall → Bool
  | .addServer => true
  | .editServer => true
  | .deleteServer => true
  | _ => false

/-- On the creation path the submitted calls are the create call alone or the
create call followed by the certificate-acceptance step and the read-only
state query. -/
theorem update_create_calls (ipAddress : String) (have_details want_auth : AuthServerDict)
    (want_trusted : Option Bool) (want_wait : Option Int) (env : UpdateEnv) (st0 : ModState)
    (hcalls : st0.calls = []) :
    (update_auth_policy_server ipAddress false have_details want_auth want_trusted
        want_wait env st0).calls = [RestCall.addServer] ∨
    (update_auth_policy_server ipAddress false have_details want_auth want_trusted
        want_wait env st0).calls =
      [RestCall.addServer, RestCall.acceptCert, RestCall.getServers] := by
  unfold update_auth_policy_server
  simp only [Bool.not_false, if_true]
  split
  · left; simp [hcalls]
  · split
    · right
      rcases env.acceptFailure with _ | am <;>
        rcases hg : env.getServersResponse with _ | entries <;>
        simp only [hg]
      · simp [hcalls]
      · rcases hd0 : get_dict_result entries ipAddress with _ | entry <;> simp only [hd0]
        · simp [hcalls]
        · split
          · simp [hcalls]
          · split <;> simp [hcalls]
      · simp [hcalls]
      · rcases hd0 : get_dict_result entries ipAddress with _ | entry <;> simp only [hd0]
        · simp [hcalls]
        · split
          · simp [hcalls]
          · split <;> simp [hcalls]
    · left; simp [hcalls]

/-- On the exists-path the submitted calls are the edit call exactly when
formatting succeeds and the module deems an update required, else none. -/
theorem update_exists_calls (ipAddress : String) (have_details want_auth : AuthServerDict)
    (want_trusted : Option Bool) (want_wait : Option Int) (env : UpdateEnv) (st0 : ModState)
    (hcalls : st0.calls = []) :
    (update_auth_policy_server ipAddress true have_details want_auth want_trusted
        want_wait env st0).calls =
      match format_payload_for_update have_details want_auth with
      | .failedMsg _ => []
      | .success w1 =>
        if truthyB have_details.isIseEnabled ||
            requires_update have_details w1 authentication_policy_server_obj_params
        then [RestCall.editServer] else [] := by
  unfold update_auth_policy_server
  simp only [Bool.not_true, Bool.false_eq_true, if_false]
  rcases hf : format_payload_for_update have_details want_auth with w1 | m
  · rcases hcond : (truthyB have_details.isIseEnabled ||
        requires_update have_details w1 authentication_policy_server_obj_params)
    · simp [hcond, hcalls]
    · simp only [hcond, Bool.not_true, Bool.false_eq_true, if_false, if_true]
      split <;> simp [hcalls]
  · simp [hcalls]

/-- The delete path submits the delete call exactly when the server exists. -/
theorem delete_calls (ipAddress : String) (auth_server_exists : Bool) (env : UpdateEnv)
    (st0 : ModState) (hcalls : st0.calls = []) :
    (delete_auth_policy_server ipAddress auth_server_exists env st0).calls =
      if auth_server_exists then [RestCall.deleteServer] else [] := by
  unfold delete_auth_policy_server
  rcases auth_server_exists
  · simp [hcalls]
  · simp only [Bool.not_true, Bool.false_eq_true, if_false, if_true]
    split <;> simp [hcalls]

theorem applyElement_merged (ipAddress : String) (auth_server_exists : Bool)
    (have_details want_auth : AuthServerDict) (want_trusted : Option Bool)
    (want_wait : Option Int) (env : UpdateEnv) (st0 : ModState) :
    applyElement "merged" ipAddress auth_server_exists have_details want_auth want_trusted
        want_wait env st0 =
      update_auth_policy_server ipAddress auth_server_exists have_details want_auth
        want_trusted want_wait env st0 :=
  rfl

theorem applyElement_deleted (ipAddress : String) (auth_server_exists : Bool)
    (have_details want_auth : AuthServerDict) (want_trusted : Option Bool)
    (want_wait : Option Int) (env : UpdateEnv) (st0 : ModState) :
    applyElement "deleted" ipAddress auth_server_exists have_details want_auth want_trusted
        want_wait env st0 =
      delete_auth_policy_server ipAddress auth_server_exists env st0 :=
  rfl

/-- C6: per processed config element at most one mutating configuration call
is submitted; the create call exactly when state is merged and the server is
absent, the delete call exactly when state is deleted and the server exists,
and the edit call exactly when state is merged, the server exists, formatting
succeeds and the module deems an update required (ISE-enabled or an
allow-listed difference). -/
theorem c6_one_mutating_call (state ipAddress : String) (auth_server_exists : Bool)
    (have_details want_auth : AuthServerDict) (want_trusted : Option Bool)
    (want_wait : Option Int) (env : UpdateEnv) (st0 : ModState)
    (hstate : state = "merged" ∨ state = "deleted") (hcalls : st0.calls = []) :
    ((applyElement state ipAddress auth_server_exists have_details want_auth want_trusted
        want_wait env st0).calls.countP (fun c => mutatingCall c) ≤ 1) ∧
    (RestCall.addServer ∈ (applyElement state ipAddress auth_server_exists have_details
        want_auth want_trusted want_wait env st0).calls ↔
      state = "merged" ∧ auth_server_exists = false) ∧
    (RestCall.deleteServer ∈ (applyElement state ipAddress auth_server_exists have_details
        want_auth want_trusted want_wait env st0).calls ↔
      state = "deleted" ∧ auth_server_exists = true) ∧
    (RestCall.editServer ∈ (applyElement state ipAddress auth_server_exists have_details
        want_auth want_trusted want_wait env st0).calls ↔
      state = "merged" ∧ auth_server_exists = true ∧
        ∃ w1, format_payload_for_update have_details want_auth = .success w1 ∧
          (truthyB have_details.isIseEnabled ||
            requires_update have_details w1 authentication_policy_server_obj_params) = true) := by
  rcases hstate with hs | hs <;> subst hs
  · rw [applyElement_merged]
    rcases auth_server_exists
    · have hc := update_create_calls ipAddress have_details want_auth want_trusted
        want_wait env st0 hcalls
      rcases hc with h | h <;> rw [h] <;>
        exact ⟨by decide, by simp, by simp, by simp⟩
    · rcases hf : format_payload_for_update have_details want_auth with w1 | m
      · rcases hcond : (truthyB have_details.isIseEnabled ||
            requires_update have_details w1 authentication_policy_server_obj_params)
        · have hc0 : (update_auth_policy_server ipAddress true have_details want_auth
              want_trusted want_wait env st0).calls = [] := by
            rw [update_exists_calls ipAddress have_details want_auth want_trusted
              want_wait env st0 hcalls, hf]
            simp [hcond]
          rw [hc0]
          refine ⟨by decide, by simp, by simp, ?_⟩
          simp
          simpa using hcond
        · have hc0 : (update_auth_policy_server ipAddress true have_details want_auth
              want_trusted want_wait env st0).calls = [RestCall.editServer] := by
            rw [update_exists_calls ipAddress have_details want_auth want_trusted
              want_wait env st0 hcalls, hf]
            simp [hcond]
          rw [hc0]
          refine ⟨by decide, by simp, by simp, ?_⟩
          simp
          simpa using hcond
      · have hc0 : (update_auth_policy_server ipAddress true have_details want_auth
            want_trusted want_wait env st0).calls = [] := by
          rw [update_exists_calls ipAddress have_details want_auth want_trusted
            want_wait env st0 hcalls, hf]
        rw [hc0]
        refine ⟨by decide, by simp, by simp, by simp⟩
  · rw [applyElement_deleted]
    have hc := delete_calls ipAddress auth_server_exists env st0 hcalls
    rcases auth_server_exists <;> simp only [if_true, if_false, Bool.false_eq_true] at hc <;>
      rw [hc]
    · exact ⟨by decide, by simp, by simp, by simp⟩
    · exact ⟨by decide, by simp, by simp, by simp⟩

/-- C6 witness: a merged element over the existing `exampleHave` with an equal
want payload makes no mutating call at all, satisfying all three iffs. -/
theorem c6_one_mutating_call_witness :
    ((applyElement "merged" "10.0.0.1" true exampleHave exampleWantSame none
        none {} {}).calls.countP (fun c => mutatingCall c) ≤ 1) ∧
    (RestCall.addServer ∈ (applyElement "merged" "10.0.0.1" true exampleHave
        exampleWantSame none none {} {}).calls ↔
      "merged" = "merged" ∧ true = false) ∧
    (RestCall.deleteServer ∈ (applyElement "merged" "10.0.0.1" true exampleHave
        exampleWantSame none none {} {}).calls ↔
      "merged" = "deleted" ∧ true = true) ∧
    (RestCall.editServer ∈ (applyElement "merged" "10.0.0.1" true exampleHave
        exampleWantSame none none {} {}).calls ↔
      "merged" = "merged" ∧ true = true ∧
        ∃ w1, format_payload_for_update exampleHave exampleWantSame = .success w1 ∧
          (truthyB exampleHave.isIseEnabled ||
            requires_update exampleHave w1 authentication_policy_server_obj_params) = true) :=
  c6_one_mutating_call "merged" "10.0.0.1" true exampleHave exampleWantSame none none {} {}
    (Or.inl rfl) rfl

/-! ## Field-preservation lemmas for the `get_want` stages -/

theorem stage_protocol_pres (e : Bool) (d : AuthServerDict) (c : AuthPolicyServerCfg)
    (a a' : AuthServerDict) (h : stage_protocol e d c a = .ok a') :
    a'.sharedSecret = a.sharedSecret ∧ a'.authenticationPort = a.authenticationPort ∧
    a'.accountingPort = a.accountingPort ∧ a'.role = a.role := by
  unfold stage_protocol at h
  repeat' (first | split at h | simp only [PyResult.bind] at h | dsimp only [] at h)
  all_goals try exact PyResult.noConfusion h
  all_goals injection h with h2
  all_goals subst h2
  all_goals exact ⟨rfl, rfl, rfl, rfl⟩

theorem stage_encryption_pres (e : Bool) (c : AuthPolicyServerCfg)
    (a a' : AuthServerDict) (h : stage_encryption e c a = .ok a') :
    a'.sharedSecret = a.sharedSecret ∧ a'.authenticationPort = a.authenticationPort ∧
    a'.accountingPort = a.accountingPort ∧ a'.role = a.role := by
  unfold stage_encryption at h
  repeat' (first | split at h | simp only [PyResult.bind] at h | dsimp only [] at h)
  all_goals try exact PyResult.noConfusion h
  all_goals injection h with h2
  all_goals subst h2
  all_goals exact ⟨rfl, rfl, rfl, rfl⟩

theorem stage_authentication_port_pres (e : Bool) (d : AuthServerDict)
    (c : AuthPolicyServerCfg) (a a' : AuthServerDict)
    (h : stage_authentication_port e d c a = .ok a') :
    a'.sharedSecret = a.sharedSecret ∧ a'.accountingPort = a.accountingPort ∧
    a'.role = a.role := by
  unfold stage_authentication_port at h
  repeat' (first | split at h | simp only [PyResult.bind] at h | dsimp only [] at h)
  all_goals try exact PyResult.noConfusion h
  all_goals injection h with h2
  all_goals subst h2
  all_goals exact ⟨rfl, rfl, rfl⟩

theorem stage_accounting_port_pres (e : Bool) (d : AuthServerDict)
    (c : AuthPolicyServerCfg) (a a' : AuthServerDict)
    (h : stage_accounting_port e d c a = .ok a') :
    a'.sharedSecret = a.sharedSecret ∧ a'.authenticationPort = a.authenticationPort ∧
    a'.role = a.role := by
  unfold stage_accounting_port at h
  repeat' (first | split at h | simp only [PyResult.bind] at h | dsimp only [] at h)
  all_goals try exact PyResult.noConfusion h
  all_goals injection h with h2
  all_goals subst h2
  all_goals exact ⟨rfl, rfl, rfl⟩

theorem stage_retries_pres (e : Bool) (d : AuthServerDict) (c : AuthPolicyServerCfg)
    (a a' : AuthServerDict) (h : stage_retries e d c a = .ok a') :
    a'.sharedSecret = a.sharedSecret ∧ a'.authenticationPort = a.authenticationPort ∧
    a'.accountingPort = a.accountingPort ∧ a'.role = a.role := by
  unfold stage_retries at h
  repeat' (first | split at h | simp only [PyResult.bind] at h | dsimp only [] at h)
  all_goals try exact PyResult.noConfusion h
  all_goals injection h with h2
  all_goals subst h2
  all_goals exact ⟨rfl, rfl, rfl, rfl⟩

theorem stage_timeout_pres (e : Bool) (d : AuthServerDict) (c : AuthPolicyServerCfg)
    (a a' : AuthServerDict) (h : stage_timeout e d c a = .ok a') :
    a'.sharedSecret = a.sharedSecret ∧ a'.authenticationPort = a.authenticationPort ∧
    a'.accountingPort = a.accountingPort ∧ a'.role = a.role := by
  unfold stage_timeout at h
  repeat' (first | split at h | simp only [PyResult.bind] at h | dsimp only [] at h)
  all_goals try exact PyResult.noConfusion h
  all_goals injection h with h2
  all_goals subst h2
  all_goals exact ⟨rfl, rfl, rfl, rfl⟩

theorem stage_role_pres (e : Bool) (d : AuthServerDict) (c : AuthPolicyServerCfg)
    (a a' : AuthServerDict) (h : stage_role e d c a = .ok a') :
    a'.sharedSecret = a.sharedSecret ∧ a'.authenticationPort = a.authenticationPort ∧
    a'.accountingPort = a.accountingPort := by
  unfold stage_role at h
  repeat' (first | split at h | simp only [PyResult.bind] at h | dsimp only [] at h)
  all_goals injection h with h2
  all_goals subst h2
  all_goals exact ⟨rfl, rfl, rfl⟩

theorem stage_ise_pres (e : Bool) (d : AuthServerDict) (c : AuthPolicyServerCfg)
    (a : AuthServerDict) (out : IseStageOut) (h : stage_ise e d c a = .ok out) :
    out.auth_server.sharedSecret = a.sharedSecret ∧
    out.auth_server.authenticationPort = a.authenticationPort ∧
    out.auth_server.accountingPort = a.accountingPort ∧
    out.auth_server.role = a.role := by
  unfold stage_ise at h
  split at h
  · injection h with h2
    subst h2
    exact ⟨rfl, rfl, rfl, rfl⟩
  · rcases hcd : c.cisco_ise_dtos with _ | creds
    · rw [hcd] at h
      simp [PyResult.bind] at h
    · rcases creds with _ | ⟨c0, cs⟩
      · rw [hcd] at h
        simp [PyResult.bind] at h
      · rw [hcd] at h
        simp only [PyResult.bind] at h
        rcases hb : buildIseDtos e d (c0 :: cs) with dtos | m | ex <;> rw [hb] at h <;>
          simp only [PyResult.bind] at h
        · rcases hx : c.external_cisco_ise_ip_addr_dtos with _ | exts
          · rw [hx] at h
            simp only [PyResult.bind] at h
            rcases hwt : c.ise_integration_wait_time with _ | wv <;> rw [hwt] at h <;>
                dsimp only [] at h
            · injection h with h2
              subst h2
              exact ⟨rfl, rfl, rfl, rfl⟩
            · split at h
              · exact PyResult.noConfusion h
              · injection h with h2
                subst h2
                exact ⟨rfl, rfl, rfl, rfl⟩
          · rcases exts with _ | ⟨e0, es⟩
            · rw [hx] at h
              simp only [PyResult.bind] at h
              rcases hwt : c.ise_integration_wait_time with _ | wv <;> rw [hwt] at h <;>
                dsimp only [] at h
              · injection h with h2
                subst h2
                exact ⟨rfl, rfl, rfl, rfl⟩
              · split at h
                · exact PyResult.noConfusion h
                · injection h with h2
                  subst h2
                  exact ⟨rfl, rfl, rfl, rfl⟩
            · rw [hx] at h
              simp only [PyResult.bind] at h
              rcases hbe : buildExternalLoop (e0 :: es) [] 0 with ext | m | ex <;>
                rw [hbe] at h <;> simp only [PyResult.bind] at h
              · rcases hwt : c.ise_integration_wait_time with _ | wv <;> rw [hwt] at h <;>
                dsimp only [] at h
                · injection h with h2
                  subst h2
                  exact ⟨rfl, rfl, rfl, rfl⟩
                · split at h
                  · exact PyResult.noConfusion h
                  · injection h with h2
                    subst h2
                    exact ⟨rfl, rfl, rfl, rfl⟩
              · exact PyResult.noConfusion h
              · exact PyResult.noConfusion h
        · exact PyResult.noConfusion h
        · exact PyResult.noConfusion h

/-- Inversion for a successful `PyResult.bind`. -/
theorem bind_ok {α β : Type} (x : PyResult α) (f : α → PyResult β) (b : β)
    (h : x.bind f = .ok b) : ∃ a, x = .ok a ∧ f a = .ok b := by
  rcases x with a | m | ex
  · exact ⟨a, rfl, h⟩
  · simp [PyResult.bind] at h
  · simp [PyResult.bind] at h

theorem presentAndDiffers_self {α : Type} [BEq α] [LawfulBEq α] (x : Option α) :
    presentAndDiffers x x = false := by
  cases x <;> simp [presentAndDiffers]

/-- C5 / code bug: on the ISE-credential password-length failing path,
`get_want_authentication_policy_server` sets status `"failed"` with an
empty message (`self.msg = ""`, line 971 of the module), contradicting the
fail-and-report-a-message contract every other failing path follows. -/
theorem c5_password_length_sets_empty_msg :
    get_want_authentication_policy_server false {}
      { server_type := some "ISE"
        server_ip_address := some "2.2.2.2"
        shared_secret := some "goodsecret"
        cisco_ise_dtos := some [{ user_name := some "admin"
                                  password := some "abc"
                                  fqdn := some "ise.example.com"
                                  ip_address := some "2.2.2.2" }] } =
      .failed "" := by
  decide

/-- C8: for an existing server, the want payload built by
`get_want_authentication_policy_server` carries the current
`authenticationPort`, `accountingPort` and `role` regardless of the playbook,
so `format_payload_for_update` can only fail with the protocol-change
message — its `update_params` rejection branch is unreachable. -/
theorem c8_existing_copies_restricted_fields (d : AuthServerDict)
    (cfg : AuthPolicyServerCfg) (w : WantState) (asw : AuthServerDict)
    (hw : get_want_authentication_policy_server true d cfg = .ok w)
    (hasw : w.authenticationPolicyServer = some asw) :
    asw.authenticationPort = d.authenticationPort ∧
    asw.accountingPort = d.accountingPort ∧
    asw.role = d.role ∧
    (∀ m, format_payload_for_update d asw = .failedMsg m →
      m = protocolChangeMsg d.protocol asw.protocol) := by
  unfold get_want_authentication_policy_server at hw
  obtain ⟨a1, h1, hw⟩ := bind_ok _ _ _ hw
  try dsimp only [] at hw
  obtain ⟨a2, h2, hw⟩ := bind_ok _ _ _ hw
  have h2e : (PyResult.ok a1 : PyResult AuthServerDict) = .ok a2 := h2
  injection h2e with h2e
  subst h2e
  try dsimp only [] at hw
  obtain ⟨a3, h3, hw⟩ := bind_ok _ _ _ hw
  try dsimp only [] at hw
  obtain ⟨a5, h5, hw⟩ := bind_ok _ _ _ hw
  have h5e : (PyResult.ok { a3 with port := some 49 } : PyResult AuthServerDict) = .ok a5 := h5
  injection h5e with h5e
  subst h5e
  try dsimp only [] at hw
  obtain ⟨a6, h6, hw⟩ := bind_ok _ _ _ hw
  have h6e : (PyResult.ok { { a3 with port := some 49 } with
      authenticationPort := d.authenticationPort } : PyResult AuthServerDict) = .ok a6 := h6
  injection h6e with h6e
  subst h6e
  try dsimp only [] at hw
  obtain ⟨a7, h7, hw⟩ := bind_ok _ _ _ hw
  have h7e : (PyResult.ok { { { a3 with port := some 49 } with
      authenticationPort := d.authenticationPort } with
      accountingPort := d.accountingPort } : PyResult AuthServerDict) = .ok a7 := h7
  injection h7e with h7e
  subst h7e
  try dsimp only [] at hw
  obtain ⟨a8, h8, hw⟩ := bind_ok _ _ _ hw
  try dsimp only [] at hw
  obtain ⟨a9, h9, hw⟩ := bind_ok _ _ _ hw
  try dsimp only [] at hw
  obtain ⟨a10, h10, hw⟩ := bind_ok _ _ _ hw
  have h10e : (PyResult.ok { a9 with role := d.role } : PyResult AuthServerDict) = .ok a10 := h10
  injection h10e with h10e
  subst h10e
  try dsimp only [] at hw
  obtain ⟨out, hise, hw⟩ := bind_ok _ _ _ hw
  injection hw with hw
  subst hw
  have hasw2 : some out.auth_server = some asw := hasw
  rw [Option.some.injEq] at hasw2
  subst hasw2
  obtain ⟨hpS, hpA, hpAc, hpR⟩ := stage_ise_pres true d cfg _ _ hise
  obtain ⟨_, htA, htAc, htR⟩ := stage_timeout_pres true d cfg _ _ h9
  obtain ⟨_, hrA, hrAc, hrR⟩ := stage_retries_pres true d cfg _ _ h8
  have hA : out.auth_server.authenticationPort = d.authenticationPort := by
    rw [hpA]
    show ({ a9 with role := d.role } : AuthServerDict).authenticationPort = _
    rw [show ({ a9 with role := d.role } : AuthServerDict).authenticationPort =
      a9.authenticationPort from rfl, htA, hrA]
  have hAc : out.auth_server.accountingPort = d.accountingPort := by
    rw [hpAc]
    rw [show ({ a9 with role := d.role } : AuthServerDict).accountingPort =
      a9.accountingPort from rfl, htAc, hrAc]
  have hR : out.auth_server.role = d.role := by
    rw [hpR]
  refine ⟨hA, hAc, hR, ?_⟩
  intro m hm
  rw [format_eq] at hm
  rw [hA, hAc, hR] at hm
  rw [presentAndDiffers_self, presentAndDiffers_self, presentAndDiffers_self] at hm
  simp only [Bool.false_eq_true, if_false] at hm
  split at hm
  · injection hm with hm
    exact hm.symm
  · exact absurd hm (by simp)

/-- The want payload `get_want_authentication_policy_server` builds for the
existing server `exampleHave` from a playbook giving only the IP address. -/
def exampleWant8 : AuthServerDict :=
  { isIseEnabled := some false, ipAddress := some "10.0.0.1", protocol := some "RADIUS",
    port := some 49, authenticationPort := some 1812, accountingPort := some 1813,
    retries := some "3", timeoutSeconds := some "4", role := some "secondary" }

/-- C8 witness: for `exampleHave` and a minimal playbook, the built want
payload carries the current ports and role and formatting cannot fail in the
`update_params` loop. -/
theorem c8_existing_copies_restricted_fields_witness :
    exampleWant8.authenticationPort = exampleHave.authenticationPort ∧
    exampleWant8.accountingPort = exampleHave.accountingPort ∧
    exampleWant8.role = exampleHave.role ∧
    (∀ m, format_payload_for_update exampleHave exampleWant8 = .failedMsg m →
      m = protocolChangeMsg exampleHave.protocol exampleWant8.protocol) :=
  c8_existing_copies_restricted_fields exampleHave { server_ip_address := some "10.0.0.1" }
    { authenticationPolicyServer := some exampleWant8 } exampleWant8 (by decide) rfl

/-- A successful shared-secret check stores the playbook value as
`sharedSecret`. -/
theorem checkSharedSecret_ok (cfg : AuthPolicyServerCfg) (a a' : AuthServerDict)
    (h : checkSharedSecret false cfg a = .ok a') : a'.sharedSecret = cfg.shared_secret := by
  unfold checkSharedSecret at h
  rcases hs : cfg.shared_secret with _ | s <;> rw [hs] at h <;>
    simp only [Bool.false_eq_true, if_false] at h
  · exact absurd h (by simp)
  · split at h
    · exact absurd h (by simp)
    · split at h
      · exact absurd h (by simp)
      · split at h
        · exact absurd h (by simp)
        · split at h
          · exact absurd h (by simp)
          · split at h
            · exact absurd h (by simp)
            · injection h with h
              subst h
              rfl

/-- The shared-secret check fails exactly on a missing value, a length outside
4..100, or a space, question mark or less-than character. -/
theorem checkSharedSecret_fail_iff (cfg : AuthPolicyServerCfg) (a : AuthServerDict) :
    (∃ m, checkSharedSecret false cfg a = .failed m) ↔
      (cfg.shared_secret = none ∨ ∃ s, cfg.shared_secret = some s ∧
        (s.length < 4 ∨ s.length > 100 ∨ s.toList.contains (Char.ofNat 32) = true ∨
          s.toList.contains (Char.ofNat 63) = true ∨
          s.toList.contains (Char.ofNat 60) = true)) := by
  constructor
  · rintro ⟨m, hm⟩
    unfold checkSharedSecret at hm
    rcases hs : cfg.shared_secret with _ | s
    · exact Or.inl rfl
    · rw [hs] at hm
      simp only [Bool.false_eq_true, if_false] at hm
      right
      refine ⟨s, rfl, ?_⟩
      split at hm
      · rename_i h0
        have hs0 : s = "" := by simpa using h0
        subst hs0
        exact Or.inl (by decide)
      · split at hm
        · rename_i hlen
          rcases (by simpa using hlen : s.length < 4 ∨ s.length > 100) with h | h
          · exact Or.inl h
          · exact Or.inr (Or.inl h)
        · split at hm
          · rename_i hc
            exact Or.inr (Or.inr (Or.inl hc))
          · split at hm
            · rename_i hc
              exact Or.inr (Or.inr (Or.inr (Or.inl hc)))
            · split at hm
              · rename_i hc
                exact Or.inr (Or.inr (Or.inr (Or.inr hc)))
              · exact absurd hm (by simp)
  · intro hbad
    unfold checkSharedSecret
    rcases hs : cfg.shared_secret with _ | s
    · exact ⟨missingSecretMsg, by simp⟩
    · rcases hbad with hn | ⟨s', hs', hcond⟩
      · rw [hs] at hn
        exact absurd hn (by simp)
      · rw [hs] at hs'
        injection hs' with he
        subst he
        by_cases h0 : (s == "") = true
        · exact ⟨missingSecretMsg, by
            simp only [Bool.false_eq_true, if_false]
            rw [if_pos h0]⟩
        · by_cases hlen : (decide (s.length < 4) || decide (s.length > 100)) = true
          · exact ⟨secretLenMsg, by
              simp only [Bool.false_eq_true, if_false]
              rw [if_neg h0, if_pos hlen]⟩
          · by_cases h32 : s.toList.contains (Char.ofNat 32) = true
            · exact ⟨secretCharMsg, by
                simp only [Bool.false_eq_true, if_false]
                rw [if_neg h0, if_neg hlen, if_pos h32]⟩
            · by_cases h63 : s.toList.contains (Char.ofNat 63) = true
              · exact ⟨secretCharMsg, by
                  simp only [Bool.false_eq_true, if_false]
                  rw [if_neg h0, if_neg hlen, if_neg h32, if_pos h63]⟩
              · have h60 : s.toList.contains (Char.ofNat 60) = true := by
                  rcases hcond with h | h | h | h | h
                  · exact absurd (by simp [h]) hlen
                  · exact absurd (by simp [h]) hlen
                  · exact absurd h h32
                  · exact absurd h h63
                  · exact h
                exact ⟨secretCharMsg, by
                  simp only [Bool.false_eq_true, if_false]
                  rw [if_neg h0, if_neg hlen, if_neg h32, if_neg h63, if_pos h60]⟩

/-- C7: on creation, the shared-secret validation fails exactly when the
secret is missing, shorter than 4 or longer than 100 characters, or contains
a space, question mark or less-than character; when it passes, the secret is
stored as `sharedSecret` in the built want payload. -/
theorem c7_creation_shared_secret (d : AuthServerDict) (cfg : AuthPolicyServerCfg)
    (a : AuthServerDict) :
    ((∃ m, checkSharedSecret false cfg a = .failed m) ↔
      (cfg.shared_secret = none ∨ ∃ s, cfg.shared_secret = some s ∧
        (s.length < 4 ∨ s.length > 100 ∨ s.toList.contains (Char.ofNat 32) = true ∨
          s.toList.contains (Char.ofNat 63) = true ∨
          s.toList.contains (Char.ofNat 60) = true))) ∧
    (∀ a', checkSharedSecret false cfg a = .ok a' → a'.sharedSecret = cfg.shared_secret) ∧
    (∀ w asw, get_want_authentication_policy_server false d cfg = .ok w →
      w.authenticationPolicyServer = some asw → asw.sharedSecret = cfg.shared_secret) := by
  refine ⟨checkSharedSecret_fail_iff cfg a, fun a' h => checkSharedSecret_ok cfg a a' h, ?_⟩
  intro w asw hw hasw
  unfold get_want_authentication_policy_server at hw
  obtain ⟨a1, h1, hw⟩ := bind_ok _ _ _ hw
  try dsimp only [] at hw
  obtain ⟨a2, h2, hw⟩ := bind_ok _ _ _ hw
  try dsimp only [] at hw
  obtain ⟨a3, h3, hw⟩ := bind_ok _ _ _ hw
  try dsimp only [] at hw
  obtain ⟨a5, h5, hw⟩ := bind_ok _ _ _ hw
  try dsimp only [] at hw
  obtain ⟨a6, h6, hw⟩ := bind_ok _ _ _ hw
  try dsimp only [] at hw
  obtain ⟨a7, h7, hw⟩ := bind_ok _ _ _ hw
  try dsimp only [] at hw
  obtain ⟨a8, h8, hw⟩ := bind_ok _ _ _ hw
  try dsimp only [] at hw
  obtain ⟨a9, h9, hw⟩ := bind_ok _ _ _ hw
  try dsimp only [] at hw
  obtain ⟨a10, h10, hw⟩ := bind_ok _ _ _ hw
  try dsimp only [] at hw
  obtain ⟨out, hise, hw⟩ := bind_ok _ _ _ hw
  injection hw with hw
  subst hw
  have hasw2 : some out.auth_server = some asw := hasw
  rw [Option.some.injEq] at hasw2
  subst hasw2
  have eise := (stage_ise_pres false d cfg a10 out hise).1
  have e10 := (stage_role_pres false d cfg a9 a10 h10).1
  have e9 := (stage_timeout_pres false d cfg a8 a9 h9).1
  have e8 := (stage_retries_pres false d cfg a7 a8 h8).1
  have e7 := (stage_accounting_port_pres false d cfg a6 a7 h7).1
  have e6 := (stage_authentication_port_pres false d cfg a5 a6 h6).1
  have e5 := (stage_encryption_pres false cfg _ a5 h5).1
  have e3 := (stage_protocol_pres false d cfg a2 a3 h3).1
  rw [eise, e10, e9, e8, e7, e6, e5]
  show a3.sharedSecret = cfg.shared_secret
  rw [e3]
  exact checkSharedSecret_ok cfg a1 a2 h2

/-- C7 witness: the theorem instantiated at a playbook whose shared secret
`"ab"` is too short. -/
theorem c7_creation_shared_secret_witness :
    ((∃ m, checkSharedSecret false { shared_secret := some "ab" } {} = .failed m) ↔
      (({ shared_secret := some "ab" } : AuthPolicyServerCfg).shared_secret = none ∨
        ∃ s, ({ shared_secret := some "ab" } : AuthPolicyServerCfg).shared_secret = some s ∧
        (s.length < 4 ∨ s.length > 100 ∨ s.toList.contains (Char.ofNat 32) = true ∨
          s.toList.contains (Char.ofNat 63) = true ∨
          s.toList.contains (Char.ofNat 60) = true))) ∧
    (∀ a', checkSharedSecret false { shared_secret := some "ab" } {} = .ok a' →
      a'.sharedSecret = ({ shared_secret := some "ab" } : AuthPolicyServerCfg).shared_secret) ∧
    (∀ w asw, get_want_authentication_policy_server false exampleHave
        { shared_secret := some "ab" } = .ok w →
      w.authenticationPolicyServer = some asw →
      asw.sharedSecret = ({ shared_secret := some "ab" } : AuthPolicyServerCfg).shared_secret) :=
  c7_creation_shared_secret exampleHave { shared_secret := some "ab" } {}

/-- A successful validation scan returns a member of the set occurring in the
scanned progress message. -/
theorem scanValidation_some (vs : List String) (p v : String)
    (h : scanValidation vs p = some v) : v ∈ vs ∧ strHasSub p v = true := by
  induction vs with
  | nil => simp [scanValidation] at h
  | cons x xs ih =>
    unfold scanValidation at h
    split at h
    · rename_i hx
      injection h with h
      subst h
      exact ⟨List.mem_cons_self x xs, hx⟩
    · rcases ih h with ⟨h1, h2⟩
      exact ⟨List.mem_cons_of_mem x h1, h2⟩

/-- With a positive time advance per iteration, the polling loop never
exhausts a fuel exceeding the remaining time. -/
theorem pollLoopAux_total (getTask : Nat → TaskDetails) (vs : List String)
    (maxT dt : Nat) (tid : Option String) (api : String) :
    ∀ fuel elapsed n st, 1 ≤ dt → maxT - elapsed < fuel →
      pollLoopAux getTask vs maxT dt tid api fuel elapsed n st ≠ none := by
  intro fuel
  induction fuel with
  | zero =>
    intro elapsed n st hdt hle
    omega
  | succ f ih =>
    intro elapsed n st hdt hle
    unfold pollLoopAux
    split
    · simp
    · rename_i hto
      dsimp only []
      split
      · simp
      · split
        · simp
        · exact ih (elapsed + dt) (n + 1) _ hdt (by omega)

/-- Exit-state characterisation of the polling loop when `result["changed"]`
is false on entry: a timeout break carries the failed status and timeout
message at an elapsed time past the bound, an error break carries the failed
status with the failure reason of the erroring poll, and a changed break
carries the success status with a validation string that occurs in the
lowered progress of the exit poll. -/
theorem pollLoopAux_spec (getTask : Nat → TaskDetails) (vs : List String)
    (maxT dt : Nat) (tid : Option String) (api : String) :
    ∀ fuel elapsed n st r, st.changed = false →
      pollLoopAux getTask vs maxT dt tid api fuel elapsed n st = some r →
      ((r.tag = .timeoutBreak ∧ r.st.status = "failed" ∧
          r.st.msg = timeoutMsg maxT tid api ∧ maxT ≤ r.exitElapsed) ∨
       (r.tag = .errorBreak ∧ r.st.status = "failed" ∧
          (getTask r.exitPoll).isError = some true ∧
          r.st.msg = failureMsgOf (getTask r.exitPoll)) ∨
       (r.tag = .changedBreak ∧ r.st.status = "success" ∧ r.st.changed = true ∧
          r.st.validationString ∈ vs ∧
          strHasSub (pyLower (getTask r.exitPoll).progress)
            r.st.validationString = true)) := by
  intro fuel
  induction fuel with
  | zero =>
    intro elapsed n st r hch h
    exact absurd h (by simp [pollLoopAux])
  | succ f ih =>
    intro elapsed n st r hch h
    unfold pollLoopAux at h
    split at h
    · rename_i hto
      injection h with h
      subst h
      exact Or.inl ⟨rfl, rfl, rfl, hto⟩
    · dsimp only [] at h
      split at h
      · rename_i herr
        injection h with h
        subst h
        refine Or.inr (Or.inl ⟨rfl, rfl, ?_, rfl⟩)
        simpa using herr
      · rcases hscan : scanValidation vs (pyLower (getTask n).progress) with _ | v <;>
          rw [hscan] at h <;> dsimp only [] at h
        · split at h
          · rename_i hcc
            rw [hch] at hcc
            exact Bool.noConfusion hcc
          · exact ih (elapsed + dt) (n + 1) st r hch h
        · split at h
          · injection h with h
            subst h
            obtain ⟨hv1, hv2⟩ := scanValidation_some vs _ v hscan
            exact Or.inr (Or.inr ⟨rfl, rfl, rfl, hv1, hv2⟩)
          · rename_i hcc
            exact absurd rfl hcc

/-- C2 (amended): when the response carries no errorcode, time advances by a
fixed positive amount `dt` per iteration (the sleep interval plus the poll
itself), and `result["changed"]` is false on entry, the polling loop of
`check_auth_server_response_status` terminates and exits through exactly one
of the three breaks, with the state the claim describes for each. -/
theorem c2_poll_trichotomy (resp : ApiTaskResponse) (getTask : Nat → TaskDetails)
    (vs : List String) (maxT dt : Nat) (api : String) (init : PollState)
    (hdt : 1 ≤ dt) (hch : init.changed = false) (herr : resp.errorcode = none) :
    ∃ r, check_auth_server_response_status (some resp) getTask vs maxT dt api init =
        .exited r ∧
      ((r.tag = .timeoutBreak ∧ r.st.status = "failed" ∧
          r.st.msg = timeoutMsg maxT resp.taskId api ∧ maxT ≤ r.exitElapsed) ∨
       (r.tag = .errorBreak ∧ r.st.status = "failed" ∧
          (getTask r.exitPoll).isError = some true ∧
          r.st.msg = failureMsgOf (getTask r.exitPoll)) ∨
       (r.tag = .changedBreak ∧ r.st.status = "success" ∧ r.st.changed = true ∧
          r.st.validationString ∈ vs ∧
          strHasSub (pyLower (getTask r.exitPoll).progress)
            r.st.validationString = true)) := by
  have hmain : check_auth_server_response_status (some resp) getTask vs maxT dt api init =
      match pollLoopAux getTask vs maxT dt resp.taskId api (maxT + 1) 0 0 init with
      | none => .fuelOut
      | some r => .exited r := by
    unfold check_auth_server_response_status
    dsimp only []
    rw [herr]
    simp
  rcases hp : pollLoopAux getTask vs maxT dt resp.taskId api (maxT + 1) 0 0 init with _ | r
  · exact absurd hp (pollLoopAux_total getTask vs maxT dt resp.taskId api
      (maxT + 1) 0 0 init hdt (by omega))
  · refine ⟨r, ?_, pollLoopAux_spec getTask vs maxT dt resp.taskId api
      (maxT + 1) 0 0 init r hch hp⟩
    rw [hmain, hp]

/-- C2 witness: a task whose first poll reports a successful operation makes
the loop exit with the success outcome. -/
theorem c2_poll_trichotomy_witness :
    ∃ r, check_auth_server_response_status
        (some { taskId := some "t1" })
        (fun _ => { isError := some false, progress := "NCND Operation Sucessful." })
        ["successfully created aaa settings", "operation sucessful"] 2 1
        "add_authentication_and_policy_server_access_configuration" {} =
        .exited r ∧
      ((r.tag = .timeoutBreak ∧ r.st.status = "failed" ∧
          r.st.msg = timeoutMsg 2 (some "t1")
            "add_authentication_and_policy_server_access_configuration" ∧
          2 ≤ r.exitElapsed) ∨
       (r.tag = .errorBreak ∧ r.st.status = "failed" ∧
          ((fun _ => ({ isError := some false, progress := "NCND Operation Sucessful." } :
            TaskDetails)) r.exitPoll).isError = some true ∧
          r.st.msg = failureMsgOf ((fun _ =>
            ({ isError := some false, progress := "NCND Operation Sucessful." } :
              TaskDetails)) r.exitPoll)) ∨
       (r.tag = .changedBreak ∧ r.st.status = "success" ∧ r.st.changed = true ∧
          r.st.validationString ∈
            ["successfully created aaa settings", "operation sucessful"] ∧
          strHasSub (pyLower ((fun _ =>
              ({ isError := some false, progress := "NCND Operation Sucessful." } :
                TaskDetails)) r.exitPoll).progress)
            r.st.validationString = true)) :=
  c2_poll_trichotomy { taskId := some "t1" }
    (fun _ => { isError := some false, progress := "NCND Operation Sucessful." })
    ["successfully created aaa settings", "operation sucessful"] 2 1
    "add_authentication_and_policy_server_access_configuration" {}
    (by decide) rfl rfl

/-- C2 counterexample: entered with `result["changed"]` already true (as on
the second element of a run), the loop exits on the first poll with the prior
`"success"` status even though no validation string occurs in the progress,
the task reports no error, and the message is not the timeout message — none
of the three outcomes the claim lists. -/
theorem c2_counterexample :
    check_auth_server_response_status (some { taskId := some "t1" })
        (fun _ => { isError := some false, progress := "pending" })
        ["successfully created aaa settings", "operation sucessful"] 1200 1 "add_api"
        { status := "success"
          msg := ""
          changed := true
          validationString := "" } =
      .exited { st := { status := "success"
                        msg := ""
                        changed := true
                        validationString := "" }
                tag := .changedBreak
                exitPoll := 0
                exitElapsed := 0 } ∧
    strHasSub (pyLower "pending") "successfully created aaa settings" = false ∧
    strHasSub (pyLower "pending") "operation sucessful" = false ∧
    ({ isError := some false, progress := "pending" } : TaskDetails).isError ≠ some true ∧
    "" ≠ timeoutMsg 1200 (some "t1") "add_api" := by
  refine ⟨?_, by decide, by decide, by decide, by decide⟩
  rfl

end IseRadius
